import Mathlib

/-!
Shallow embedding of the priced-bundle core of the pumpfundeplyerbot
repository: the constant-product bonding-curve quotes, the metadata
validator, and the Jito bundle client (submission validation, retry loop,
status polling and confirmation wait).

JavaScript numbers are modelled as exact rationals; machine strings as
Lean strings. Fallible code (JS throw) is modelled with Except/Option or
with an explicit outcome type; network effects are modelled by passing
the network response (or failure) as an explicit argument.
-/

namespace PumpFun

/-- Snapshot of a bonding curve, as in BondingCurveData
(src/frontend/ts-jito-cleint/pumpfun-client.ts): token address, current
price, total supply and the two reserves. -/
structure BondingCurveData where
  tokenAddress : String
  currentPrice : ℚ
  totalSupply : ℚ
  solReserve : ℚ
  tokenReserve : ℚ

/-- The slice of PumpFunConfig the quote functions read: the flat trading
fee rate this.config.tradingFee. -/
structure PumpFunConfig where
  tradingFee : ℚ

/-- calculateSolForTokens of pumpfun-client.ts (lines 447-460; identical in
unnamed/part_002 lines 485-498): constant-product sell quote with the fee
added on the SOL leg. The source performs no check on the post-trade token
reserve; neither does this embedding. -/
def calculateSolForTokens (config : PumpFunConfig) (tokenAmount : ℚ)
    (bondingCurve : BondingCurveData) : ℚ :=
  let k := bondingCurve.solReserve * bondingCurve.tokenReserve
  let newTokenReserve := bondingCurve.tokenReserve - tokenAmount
  let newSolReserve := k / newTokenReserve
  let solNeeded := newSolReserve - bondingCurve.solReserve
  let fee := solNeeded * config.tradingFee
  solNeeded + fee

/-- calculateTokensForSol of pumpfun-client.ts (lines 462-475; identical in
unnamed/part_002 lines 500-513): constant-product buy quote with the fee
subtracted from the token output. -/
def calculateTokensForSol (config : PumpFunConfig) (solAmount : ℚ)
    (bondingCurve : BondingCurveData) : ℚ :=
  let k := bondingCurve.solReserve * bondingCurve.tokenReserve
  let newSolReserve := bondingCurve.solReserve + solAmount
  let newTokenReserve := k / newSolReserve
  let tokensReceived := bondingCurve.tokenReserve - newTokenReserve
  let fee := tokensReceived * config.tradingFee
  tokensReceived - fee

/-- The reserve snapshot the stubbed getBondingCurveData always returns:
solReserve 1000, tokenReserve 1000000. -/
def stubBondingCurve : BondingCurveData :=
  { tokenAddress := "stub"
    currentPrice := 1 / 1000
    totalSupply := 1000000
    solReserve := 1000
    tokenReserve := 1000000 }

/-- Arithmetic core of the round-trip bound: buying with x SOL and selling
the quoted tokens back on the same snapshot returns at most x once both
fee legs are applied. -/
lemma roundTrip_core (s T x f : ℚ) (hs : 0 < s) (hT : 0 < T)
    (hx : 0 < x) (hf : 0 < f) :
    (s * T / (T - ((T - s * T / (s + x)) - (T - s * T / (s + x)) * f)) - s) +
      (s * T / (T - ((T - s * T / (s + x)) - (T - s * T / (s + x)) * f)) - s)
        * f ≤ x := by
  have hsx : (0 : ℚ) < s + x := by linarith
  have hsfx : (0 : ℚ) < s + f * x := by positivity
  have h1 : s + x ≠ 0 := ne_of_gt hsx
  have h2 : s + f * x ≠ 0 := ne_of_gt hsfx
  have h3 : T ≠ 0 := ne_of_gt hT
  have hkey : T - ((T - s * T / (s + x)) - (T - s * T / (s + x)) * f)
      = T * (s + f * x) / (s + x) := by
    field_simp
    ring
  rw [hkey]
  have hq : s * T / (T * (s + f * x) / (s + x)) = s * (s + x) / (s + f * x) := by
    field_simp
    ring
  rw [hq]
  have hform : (s * (s + x) / (s + f * x) - s) +
      (s * (s + x) / (s + f * x) - s) * f
      = (s * x * (1 - f) * (1 + f)) / (s + f * x) := by
    field_simp
    ring
  rw [hform, div_le_iff₀ hsfx]
  have hpos : 0 < f * x * (x + s * f) := by positivity
  nlinarith [hpos]

end PumpFun

namespace PumpFun

/-- C1: for positive reserves and positive solIn, the buy quote equals the
constant-product output with the trading fee subtracted on the token leg:
(tokenReserve - solReserve*tokenReserve/(solReserve+solIn)) * (1 - tradingFee). -/
theorem calculateTokensForSol_spec (config : PumpFunConfig)
    (state : BondingCurveData) (solIn : ℚ)
    (hs : 0 < state.solReserve) (ht : 0 < state.tokenReserve)
    (hx : 0 < solIn) :
    calculateTokensForSol config solIn state =
      (state.tokenReserve -
        (state.solReserve * state.tokenReserve) / (state.solReserve + solIn)) *
        (1 - config.tradingFee) := by
  unfold calculateTokensForSol
  ring

theorem calculateTokensForSol_spec_witness :
    calculateTokensForSol ⟨1 / 100⟩ 10 stubBondingCurve =
      (stubBondingCurve.tokenReserve -
        (stubBondingCurve.solReserve * stubBondingCurve.tokenReserve) /
          (stubBondingCurve.solReserve + 10)) * (1 - (1 : ℚ) / 100) :=
  calculateTokensForSol_spec ⟨1 / 100⟩ stubBondingCurve 10
    (by norm_num [stubBondingCurve]) (by norm_num [stubBondingCurve])
    (by norm_num)

/-- C2: for positive reserves and 0 < tokensIn < tokenReserve, the sell
quote equals (solReserve*tokenReserve/(tokenReserve - tokensIn) - solReserve)
* (1 + tradingFee): the fee is added on the SOL leg when selling. -/
theorem calculateSolForTokens_spec (config : PumpFunConfig)
    (state : BondingCurveData) (tokensIn : ℚ)
    (hs : 0 < state.solReserve) (ht : 0 < state.tokenReserve)
    (hx : 0 < tokensIn) (hlt : tokensIn < state.tokenReserve) :
    calculateSolForTokens config tokensIn state =
      ((state.solReserve * state.tokenReserve) /
          (state.tokenReserve - tokensIn) - state.solReserve) *
        (1 + config.tradingFee) := by
  unfold calculateSolForTokens
  ring

theorem calculateSolForTokens_spec_witness :
    calculateSolForTokens ⟨1 / 100⟩ 500 stubBondingCurve =
      ((stubBondingCurve.solReserve * stubBondingCurve.tokenReserve) /
          (stubBondingCurve.tokenReserve - 500) - stubBondingCurve.solReserve) *
        (1 + (1 : ℚ) / 100) :=
  calculateSolForTokens_spec ⟨1 / 100⟩ stubBondingCurve 500
    (by norm_num [stubBondingCurve]) (by norm_num [stubBondingCurve])
    (by norm_num) (by norm_num [stubBondingCurve])

/-- C3: the sell quote has no liquidity guard. At the stubbed reserve state
(solReserve 1000, tokenReserve 1000000), selling 1000001 tokens (post-trade
token reserve -1) returns a negative SOL amount computed from the negative
reserve instead of failing with an InsufficientLiquidity error. -/
theorem calculateSolForTokens_overdraw_returns_value :
    calculateSolForTokens ⟨1 / 100⟩ 1000001 stubBondingCurve < 0 ∧
      stubBondingCurve.tokenReserve - 1000001 ≤ 0 := by
  constructor
  · norm_num [calculateSolForTokens, stubBondingCurve]
  · norm_num [stubBondingCurve]

/-- C4: composing the two quotes on the same snapshot never returns more
SOL than was put in once both fees are applied. -/
theorem roundTrip_never_profitable (config : PumpFunConfig)
    (state : BondingCurveData) (solIn : ℚ)
    (hs : 0 < state.solReserve) (ht : 0 < state.tokenReserve)
    (hx : 0 < solIn) (hf : 0 < config.tradingFee) :
    calculateSolForTokens config (calculateTokensForSol config solIn state)
      state ≤ solIn := by
  obtain ⟨f⟩ := config
  obtain ⟨a, p, Sup, s, T⟩ := state
  exact roundTrip_core s T solIn f hs ht hx hf

theorem roundTrip_never_profitable_witness :
    calculateSolForTokens ⟨1 / 100⟩
      (calculateTokensForSol ⟨1 / 100⟩ 10 stubBondingCurve)
      stubBondingCurve ≤ 10 :=
  roundTrip_never_profitable ⟨1 / 100⟩ stubBondingCurve 10
    (by norm_num [stubBondingCurve]) (by norm_num [stubBondingCurve])
    (by norm_num) (by norm_num)

end PumpFun

namespace JitoBundle

/-- Body of the relay POST built by submitBundle in
src/frontend/server/jito-bundle.ts: the transaction blobs, the fixed tip
account and the tip in lamports. -/
structure BundleRequest where
  transactions : List String
  tip_account : String
  tip_amount : ℕ
  deriving DecidableEq

/-- Outcome of the synchronous prefix of submitBundle: either an error is
thrown before the relay is contacted, or control reaches the
this.client.post network call with the assembled request body. -/
inductive SubmitOutcome where
  | thrown (msg : String)
  | networkPost (request : BundleRequest)
  deriving DecidableEq

/-- Character set of RFC 4648 base64 (with padding). Used only to state
that a concrete blob is not valid base64; the code itself never checks
this (see validateTransactions). -/
def isBase64Char (c : Char) : Bool :=
  c.isAlphanum || c = '+' || c = '/' || c = '='

/-- Validity of a base64 blob: base64 alphabet only and length a multiple
of four. -/
def isValidBase64 (s : String) : Bool :=
  s.toList.all isBase64Char && s.length % 4 == 0

/-- validateTransactions of jito-bundle.ts (lines 102-121). The length
checks throw as written. The per-transaction loop wraps
Buffer.from(tx, "base64") in try/catch, but Node never throws from
Buffer.from on a string with the base64 encoding — characters outside the
base64 alphabet are silently dropped — so the catch branch is dead code
and the loop can raise nothing. The embedding therefore returns an error
only for the length violations. -/
def validateTransactions (transactions : List String) : Option String :=
  if transactions.length = 0 then some "No transactions provided"
  else if transactions.length > 16 then
    some "Maximum 16 transactions allowed per bundle"
  else none

/-- The hard-coded tip account of submitBundle. -/
def tipAccount : String := "CebN5WGQ4jvEPvsVU4EoHEpgzq1VV7AbicfhtW4xC9iM"

/-- Math.floor(this.tipAmount * 1e9) with tipAmount = 0.00001 SOL. -/
def tipAmountLamports : ℕ := 10000

/-- Synchronous prefix of submitBundle of jito-bundle.ts (lines 20-51):
the two length guards, validateTransactions, then the POST to the relay
with the assembled request. -/
def submitBundle (transactions : List String) : SubmitOutcome :=
  if transactions.length = 0 then .thrown "No transactions to bundle"
  else if transactions.length > 16 then
    .thrown "Maximum 16 transactions allowed per bundle"
  else
    match validateTransactions transactions with
    | some msg => .thrown msg
    | none =>
        .networkPost
          { transactions := transactions
            tip_account := tipAccount
            tip_amount := tipAmountLamports }

/-- C5 (code behaviour at the failing input): a one-element bundle whose
blob is not valid base64 passes validateTransactions — the base64 check
cannot fire — and submitBundle reaches the relay POST instead of failing
with a validation error. -/
theorem submitBundle_invalid_base64_reaches_network :
    isValidBase64 "!!!not base64!!!" = false ∧
      submitBundle ["!!!not base64!!!"] =
        .networkPost
          { transactions := ["!!!not base64!!!"]
            tip_account := tipAccount
            tip_amount := tipAmountLamports } := by
  constructor
  · rfl
  · rfl

/-- Shape of the relay response submitBundle resolves with, as read by
submitBundleWithRetry: only the status field is inspected. -/
structure BundleResponse where
  bundleId : String
  status : String
  transactions : List String
  deriving DecidableEq

/-- Failure text an attempt contributes to lastError: a thrown attempt
contributes error.message, a resolved attempt with a non-success status
contributes response.status. -/
def attemptFailureText : Except String BundleResponse → String
  | .error m => m
  | .ok r => r.status

/-- JS string interpolation of the lastError variable in the terminal
throw: undefined prints as "undefined". -/
def lastErrorText : Option String → String
  | some m => m
  | none => "undefined"

/-- Terminal error message of submitBundleWithRetry once all attempts are
exhausted. -/
def retryFailMsg (maxRetries : ℕ) (lastError : Option String) : String :=
  "Bundle submission failed after " ++ toString maxRetries ++
    " retries. Last error: " ++ lastErrorText lastError

/-- Boolean success test of an attempt: response.status === "success";
a thrown attempt is never a success. -/
def isSuccessAttempt : Except String BundleResponse → Bool
  | .ok r => r.status == "success"
  | .error _ => false

/-- Trace of one run of submitBundleWithRetry: the value it returns or the
error it throws, how many times it invoked submitBundle, and the backoff
delays (in ms) it slept, in order. -/
structure RetryTrace where
  result : Except String BundleResponse
  calls : ℕ
  delaysMs : List ℕ

/-- Loop of submitBundleWithRetry of jito-bundle.ts (lines 66-100), with
the attempt outcomes passed in as a function from attempt index to what
submitBundle did on that call. fuel is maxRetries - retries, so fuel = 0
is the loop exit, where the terminal error is thrown; the delay after a
failed attempt happens only when the incremented retries is still below
maxRetries, that is when fuel is still positive after the decrement. -/
def submitBundleWithRetryAux (outcomes : ℕ → Except String BundleResponse)
    (maxRetries : ℕ) : ℕ → ℕ → Option String → RetryTrace
  | 0, _retries, lastError =>
      { result := .error (retryFailMsg maxRetries lastError)
        calls := 0
        delaysMs := [] }
  | fuel + 1, retries, _lastError =>
      match outcomes retries with
      | .ok r =>
          if r.status = "success" then
            { result := .ok r, calls := 1, delaysMs := [] }
          else
            let rest := submitBundleWithRetryAux outcomes maxRetries fuel
              (retries + 1) (some r.status)
            { result := rest.result
              calls := rest.calls + 1
              delaysMs :=
                (if fuel ≠ 0 then [2 ^ (retries + 1) * 1000] else []) ++
                  rest.delaysMs }
      | .error m =>
          let rest := submitBundleWithRetryAux outcomes maxRetries fuel
            (retries + 1) (some m)
          { result := rest.result
            calls := rest.calls + 1
            delaysMs :=
              (if fuel ≠ 0 then [2 ^ (retries + 1) * 1000] else []) ++
                rest.delaysMs }

/-- submitBundleWithRetry of jito-bundle.ts: the loop starts with
retries = 0 and lastError undefined. -/
def submitBundleWithRetry (outcomes : ℕ → Except String BundleResponse)
    (maxRetries : ℕ) : RetryTrace :=
  submitBundleWithRetryAux outcomes maxRetries maxRetries 0 none

/-- One loop iteration on a successful attempt: the response is returned
at once, after a single call and no delay. -/
lemma retryAux_step_success (outcomes : ℕ → Except String BundleResponse)
    (maxRetries fuel retries : ℕ) (lastError : Option String)
    (r : BundleResponse) (ho : outcomes retries = .ok r)
    (hs : r.status = "success") :
    submitBundleWithRetryAux outcomes maxRetries (fuel + 1) retries lastError
      = { result := .ok r, calls := 1, delaysMs := [] } := by
  simp [submitBundleWithRetryAux, ho, hs]

/-- One loop iteration on a failed attempt (thrown, or resolved with a
non-success status): the loop records the failure text as lastError,
sleeps when attempts remain, and continues. -/
lemma retryAux_step_fail (outcomes : ℕ → Except String BundleResponse)
    (maxRetries fuel retries : ℕ) (lastError : Option String)
    (hfail : isSuccessAttempt (outcomes retries) = false) :
    submitBundleWithRetryAux outcomes maxRetries (fuel + 1) retries lastError
      = { result := (submitBundleWithRetryAux outcomes maxRetries fuel
            (retries + 1) (some (attemptFailureText (outcomes retries)))).result
          calls := (submitBundleWithRetryAux outcomes maxRetries fuel
            (retries + 1)
            (some (attemptFailureText (outcomes retries)))).calls + 1
          delaysMs :=
            (if fuel ≠ 0 then [2 ^ (retries + 1) * 1000] else []) ++
              (submitBundleWithRetryAux outcomes maxRetries fuel (retries + 1)
                (some (attemptFailureText (outcomes retries)))).delaysMs } := by
  cases ho : outcomes retries with
  | ok r =>
      rw [ho] at hfail
      simp only [isSuccessAttempt, beq_eq_false_iff_ne, ne_eq] at hfail
      simp [submitBundleWithRetryAux, ho, hfail, attemptFailureText]
  | error m =>
      simp [submitBundleWithRetryAux, ho, attemptFailureText]

/-- The loop calls submitBundle at most fuel more times. -/
lemma retryAux_calls_le (outcomes : ℕ → Except String BundleResponse)
    (maxRetries : ℕ) :
    ∀ fuel retries lastError,
      (submitBundleWithRetryAux outcomes maxRetries fuel retries
        lastError).calls ≤ fuel
  | 0, _retries, _lastError => by
      simp [submitBundleWithRetryAux]
  | fuel + 1, retries, lastError => by
      cases hsucc : isSuccessAttempt (outcomes retries) with
      | true =>
          cases ho : outcomes retries with
          | ok r =>
              rw [ho] at hsucc
              simp only [isSuccessAttempt, beq_iff_eq] at hsucc
              rw [retryAux_step_success outcomes maxRetries fuel retries
                lastError r ho hsucc]
              show 1 ≤ fuel + 1
              omega
          | error m => rw [ho] at hsucc; simp [isSuccessAttempt] at hsucc
      | false =>
          rw [retryAux_step_fail outcomes maxRetries fuel retries lastError
            hsucc]
          have := retryAux_calls_le outcomes maxRetries fuel (retries + 1)
            (some (attemptFailureText (outcomes retries)))
          simpa using Nat.add_le_add_right this 1

/-- When the first success among the remaining attempts is the one at
offset i, the loop returns that response after exactly i + 1 calls. -/
lemma retryAux_first_success (outcomes : ℕ → Except String BundleResponse)
    (maxRetries : ℕ) :
    ∀ fuel i retries lastError r,
      i < fuel →
      (∀ j, j < i → isSuccessAttempt (outcomes (retries + j)) = false) →
      outcomes (retries + i) = .ok r →
      r.status = "success" →
      (submitBundleWithRetryAux outcomes maxRetries fuel retries
          lastError).result = .ok r ∧
        (submitBundleWithRetryAux outcomes maxRetries fuel retries
          lastError).calls = i + 1
  | 0, i, _retries, _lastError, _r => by omega
  | fuel + 1, 0, retries, lastError, r => by
      intro _hi _hj ho hs
      rw [Nat.add_zero] at ho
      rw [retryAux_step_success outcomes maxRetries fuel retries lastError
        r ho hs]
      exact ⟨rfl, rfl⟩
  | fuel + 1, i + 1, retries, lastError, r => by
      intro hi hj ho hs
      have hfail0 : isSuccessAttempt (outcomes retries) = false := by
        simpa using hj 0 (Nat.succ_pos i)
      rw [retryAux_step_fail outcomes maxRetries fuel retries lastError
        hfail0]
      have hrec := retryAux_first_success outcomes maxRetries fuel i
        (retries + 1) (some (attemptFailureText (outcomes retries))) r
        (by omega)
        (fun j hji => by
          have := hj (j + 1) (by omega)
          simpa [Nat.add_assoc, Nat.add_comm 1 j] using this)
        (by
          have : retries + 1 + i = retries + (i + 1) := by omega
          rw [this]; exact ho)
        hs
      exact ⟨hrec.1, by simp [hrec.2]⟩

/-- When every remaining attempt fails, the loop throws the terminal error
built from the failure text of the last attempt. -/
lemma retryAux_all_fail (outcomes : ℕ → Except String BundleResponse)
    (maxRetries : ℕ) :
    ∀ fuel retries lastError,
      0 < fuel →
      (∀ j, j < fuel → isSuccessAttempt (outcomes (retries + j)) = false) →
      (submitBundleWithRetryAux outcomes maxRetries fuel retries
          lastError).result =
        .error (retryFailMsg maxRetries
          (some (attemptFailureText (outcomes (retries + fuel - 1)))))
  | 0, _retries, _lastError => by omega
  | 1, retries, lastError => by
      intro _hpos hj
      have hfail0 : isSuccessAttempt (outcomes retries) = false := by
        simpa using hj 0 Nat.one_pos
      rw [retryAux_step_fail outcomes maxRetries 0 retries lastError hfail0]
      simp [submitBundleWithRetryAux]
  | fuel + 2, retries, lastError => by
      intro _hpos hj
      have hfail0 : isSuccessAttempt (outcomes retries) = false := by
        simpa using hj 0 (by omega)
      rw [retryAux_step_fail outcomes maxRetries (fuel + 1) retries lastError
        hfail0]
      have hrec := retryAux_all_fail outcomes maxRetries (fuel + 1)
        (retries + 1) (some (attemptFailureText (outcomes retries)))
        (by omega)
        (fun j hji => by
          have := hj (j + 1) (by omega)
          simpa [Nat.add_assoc, Nat.add_comm 1 j] using this)
      have harg : retries + 1 + (fuel + 1) - 1 = retries + (fuel + 2) - 1 := by
        omega
      rw [harg] at hrec
      simpa using hrec

/-- Every recorded backoff delay at position i is 2 ^ (retries + i + 1)
seconds, expressed in ms. -/
lemma retryAux_delays (outcomes : ℕ → Except String BundleResponse)
    (maxRetries : ℕ) :
    ∀ fuel retries lastError i d,
      (submitBundleWithRetryAux outcomes maxRetries fuel retries
          lastError).delaysMs.get? i = some d →
      d = 2 ^ (retries + i + 1) * 1000
  | 0, retries, lastError, i, d => by
      simp [submitBundleWithRetryAux]
  | fuel + 1, retries, lastError, i, d => by
      intro hget
      cases hsucc : isSuccessAttempt (outcomes retries) with
      | true =>
          cases ho : outcomes retries with
          | ok r =>
              rw [ho] at hsucc
              simp only [isSuccessAttempt, beq_iff_eq] at hsucc
              rw [retryAux_step_success outcomes maxRetries fuel retries
                lastError r ho hsucc] at hget
              simp at hget
          | error m => rw [ho] at hsucc; simp [isSuccessAttempt] at hsucc
      | false =>
          rw [retryAux_step_fail outcomes maxRetries fuel retries lastError
            hsucc] at hget
          by_cases hfz : fuel = 0
          · subst hfz
            simp [submitBundleWithRetryAux] at hget
          · simp only [if_pos hfz, List.singleton_append] at hget
            cases i with
            | zero =>
                simp only [List.get?_cons_zero, Option.some_inj] at hget
                exact hget.symm
            | succ i =>
                simp only [List.get?_cons_succ] at hget
                have hrec := retryAux_delays outcomes maxRetries fuel
                  (retries + 1) (some (attemptFailureText (outcomes retries)))
                  i d hget
                have harg : retries + 1 + i + 1 = retries + (i + 1) + 1 := by
                  omega
                rw [harg] at hrec
                exact hrec

/-- C6: with maxRetries at least 1, submitBundleWithRetry invokes
submitBundle at most maxRetries times; it returns the first response with
status "success" immediately, after exactly one call past the failed
attempts; when every attempt within the budget is a non-success outcome,
it throws a terminal error whose message carries the failure reason of the
last attempt; and every backoff delay preceding retry attempt n is
2 ^ n seconds (2 ^ n * 1000 ms, at position n - 1 of the delay list). -/
theorem submitBundleWithRetry_spec
    (outcomes : ℕ → Except String BundleResponse) (maxRetries : ℕ)
    (hmr : 1 ≤ maxRetries) :
    (submitBundleWithRetry outcomes maxRetries).calls ≤ maxRetries ∧
      (∀ i r, i < maxRetries →
        (∀ j, j < i → isSuccessAttempt (outcomes j) = false) →
        outcomes i = .ok r → r.status = "success" →
        (submitBundleWithRetry outcomes maxRetries).result = .ok r ∧
          (submitBundleWithRetry outcomes maxRetries).calls = i + 1) ∧
      ((∀ i, i < maxRetries → isSuccessAttempt (outcomes i) = false) →
        (submitBundleWithRetry outcomes maxRetries).result =
          .error (retryFailMsg maxRetries
            (some (attemptFailureText (outcomes (maxRetries - 1)))))) ∧
      (∀ i d,
        (submitBundleWithRetry outcomes maxRetries).delaysMs.get? i = some d →
        d = 2 ^ (i + 1) * 1000) := by
  refine ⟨?_, ?_, ?_, ?_⟩
  · exact retryAux_calls_le outcomes maxRetries maxRetries 0 none
  · intro i r hi hj ho hs
    exact retryAux_first_success outcomes maxRetries maxRetries i 0 none r hi
      (fun j hji => by simpa using hj j hji) (by simpa using ho) hs
  · intro hall
    have := retryAux_all_fail outcomes maxRetries maxRetries 0 none
      (by omega) (fun j hj => by simpa using hall j hj)
    simpa using this
  · intro i d hget
    have := retryAux_delays outcomes maxRetries maxRetries 0 none i d hget
    simpa using this

/-- Concrete attempt schedule for the retry witness: the first attempt
throws, every later attempt resolves with status "success". -/
def witnessOutcomes : ℕ → Except String BundleResponse := fun i =>
  if i = 0 then .error "relay unavailable"
  else .ok { bundleId := "b1", status := "success", transactions := [] }

theorem submitBundleWithRetry_spec_witness :
    (submitBundleWithRetry witnessOutcomes 3).calls ≤ 3 :=
  (submitBundleWithRetry_spec witnessOutcomes 3 (by norm_num)).1

/-- getBundleStatus of jito-bundle.ts (lines 53-64), with the GET outcome
passed in: a resolved request returns response.data; a failed request is
caught and re-thrown as a new Error with the message prefixed. -/
def serverGetBundleStatus (bundleId : String)
    (net : Except String BundleResponse) : Except String BundleResponse :=
  match net with
  | .ok d => .ok d
  | .error e => .error ("Failed to get bundle status: " ++ e)

end JitoBundle

namespace SimpleBot

/-- BundleStatus as simple-bot.ts assembles it from the relay response. -/
structure BundleStatus where
  bundleId : String
  status : String
  transactions : List String
  blockNumber : Option ℕ
  slot : Option ℕ
  error : Option String
  deriving DecidableEq

/-- Fields of response.data read by getBundleStatus of simple-bot.ts; the
transactions field may be absent (the code applies a default with
response.data.transactions or-else the empty list). -/
structure JitoStatusData where
  status : String
  transactions : Option (List String)
  block_number : Option ℕ
  slot : Option ℕ
  error : Option String

/-- getBundleStatus of simple-bot.ts (lines 824-847), with the GET outcome
passed in: a resolved request maps response.data onto a BundleStatus; a
failed request is caught and mapped to a BundleStatus with status
"failed" and the error text captured. The function resolves on both
branches — it never throws, so the Except result is always ok. -/
def getBundleStatus (bundleId : String)
    (net : Except String JitoStatusData) : Except String BundleStatus :=
  match net with
  | .ok d =>
      .ok { bundleId := bundleId
            status := d.status
            transactions := d.transactions.getD []
            blockNumber := d.block_number
            slot := d.slot
            error := d.error }
  | .error e =>
      .ok { bundleId := bundleId
            status := "failed"
            transactions := []
            blockNumber := none
            slot := none
            error := some e }

/-- C7 counterexample: the server-side getBundleStatus of jito-bundle.ts
re-throws on a failed status request instead of returning a failed-status
result, so the claim that getBundleStatus never throws is false for that
cited implementation. -/
theorem serverGetBundleStatus_throws :
    JitoBundle.serverGetBundleStatus "bundle-1"
        (.error "network unreachable") =
      .error "Failed to get bundle status: network unreachable" := rfl

/-- C7 (amended): the simple-bot getBundleStatus never throws — it always
resolves — and a failed status request yields a result with status
"failed" and the error message captured. -/
theorem getBundleStatus_never_throws (bundleId : String)
    (net : Except String JitoStatusData) :
    (∃ r, getBundleStatus bundleId net = .ok r) ∧
      ∀ e, net = .error e →
        getBundleStatus bundleId net =
          .ok { bundleId := bundleId
                status := "failed"
                transactions := []
                blockNumber := none
                slot := none
                error := some e } := by
  cases net with
  | ok d => exact ⟨⟨_, rfl⟩, by intro e he; cases he⟩
  | error e => exact ⟨⟨_, rfl⟩, by intro e' he'; cases he'; rfl⟩

/-- Terminal-status test of the confirmation loop: accepted, rejected or
failed stops the polling. -/
def isTerminalStatus (s : String) : Bool :=
  s == "accepted" || s == "rejected" || s == "failed"

/-- Synthetic result waitForBundleConfirmation returns on timeout. -/
def timeoutStatus (bundleId : String) : BundleStatus :=
  { bundleId := bundleId
    status := "failed"
    transactions := []
    blockNumber := none
    slot := none
    error := some "Bundle confirmation timeout" }

/-- Loop of waitForBundleConfirmation of simple-bot.ts (lines 874-898),
with the poll results passed in as a function from poll index to the
BundleStatus that getBundleStatus resolved with. Polls are instantaneous
in this model, so when poll n runs the elapsed time is the 2000 ms sleep
times n; the loop guard compares that elapsed time against maxWaitTime
before each poll. -/
def waitForBundleConfirmationAux (statuses : ℕ → BundleStatus)
    (bundleId : String) (maxWaitTime : ℕ) (n : ℕ) : BundleStatus :=
  if h : 2000 * n < maxWaitTime then
    let s := statuses n
    if isTerminalStatus s.status then s
    else waitForBundleConfirmationAux statuses bundleId maxWaitTime (n + 1)
  else
    timeoutStatus bundleId
termination_by maxWaitTime - 2000 * n
decreasing_by omega

/-- waitForBundleConfirmation of simple-bot.ts: the loop starts at elapsed
time 0. -/
def waitForBundleConfirmation (statuses : ℕ → BundleStatus)
    (bundleId : String) (maxWaitTime : ℕ) : BundleStatus :=
  waitForBundleConfirmationAux statuses bundleId maxWaitTime 0

/-- When the first terminal poll among the remaining ones is at offset i
and still inside the time budget, the loop returns exactly that polled
status. -/
lemma waitAux_first_terminal (statuses : ℕ → BundleStatus)
    (bundleId : String) (maxWaitTime : ℕ) :
    ∀ i n,
      2000 * (n + i) < maxWaitTime →
      (∀ j, j < i → isTerminalStatus (statuses (n + j)).status = false) →
      isTerminalStatus (statuses (n + i)).status = true →
      waitForBundleConfirmationAux statuses bundleId maxWaitTime n
        = statuses (n + i)
  | 0, n => by
      intro htime _hj hterm
      rw [Nat.add_zero] at htime hterm
      rw [waitForBundleConfirmationAux]
      simp [htime, hterm]
  | i + 1, n => by
      intro htime hj hterm
      have htime0 : 2000 * n < maxWaitTime := by omega
      have hfail0 : isTerminalStatus (statuses n).status = false := by
        simpa using hj 0 (Nat.succ_pos i)
      rw [waitForBundleConfirmationAux]
      simp only [htime0, dif_pos, hfail0]
      have hrec := waitAux_first_terminal statuses bundleId maxWaitTime i
        (n + 1)
        (by omega)
        (fun j hji => by
          have := hj (j + 1) (by omega)
          simpa [Nat.add_assoc, Nat.add_comm 1 j] using this)
        (by
          have harg : n + 1 + i = n + (i + 1) := by omega
          rw [harg]; exact hterm)
      have harg : n + 1 + i = n + (i + 1) := by omega
      rw [harg] at hrec
      simpa using hrec

/-- When no poll inside the time budget is terminal, the loop returns the
synthetic timeout result. -/
lemma waitAux_timeout (statuses : ℕ → BundleStatus) (bundleId : String)
    (maxWaitTime : ℕ)
    (hall : ∀ i, 2000 * i < maxWaitTime →
      isTerminalStatus (statuses i).status = false) :
    ∀ k n, maxWaitTime ≤ 2000 * n + k →
      waitForBundleConfirmationAux statuses bundleId maxWaitTime n
        = timeoutStatus bundleId
  | 0, n => by
      intro hk
      rw [waitForBundleConfirmationAux]
      have : ¬ 2000 * n < maxWaitTime := by omega
      simp [this]
  | k + 1, n => by
      intro hk
      rw [waitForBundleConfirmationAux]
      by_cases htime : 2000 * n < maxWaitTime
      · have hfail := hall n htime
        simp only [htime, dif_pos, hfail]
        exact waitAux_timeout statuses bundleId maxWaitTime hall k (n + 1)
          (by omega) |>.trans rfl
      · simp [htime]

/-- C8: waitForBundleConfirmation returns the polled status at the first
poll inside the time budget whose status is terminal (accepted, rejected
or failed); and when every poll inside the budget is non-terminal it
returns, rather than hanging, the synthetic failed result with the
timeout error. Poll i runs at elapsed time 2000 * i ms: the fixed
2-second interval. -/
theorem waitForBundleConfirmation_spec (statuses : ℕ → BundleStatus)
    (bundleId : String) (maxWaitTime : ℕ) :
    (∀ i, 2000 * i < maxWaitTime →
      (∀ j, j < i → isTerminalStatus (statuses j).status = false) →
      isTerminalStatus (statuses i).status = true →
      waitForBundleConfirmation statuses bundleId maxWaitTime = statuses i) ∧
      ((∀ i, 2000 * i < maxWaitTime →
          isTerminalStatus (statuses i).status = false) →
        waitForBundleConfirmation statuses bundleId maxWaitTime =
          timeoutStatus bundleId) := by
  constructor
  · intro i hi hj hterm
    have := waitAux_first_terminal statuses bundleId maxWaitTime i 0
      (by simpa using hi) (fun j hji => by simpa using hj j hji)
      (by simpa using hterm)
    simpa [waitForBundleConfirmation] using this
  · intro hall
    exact waitAux_timeout statuses bundleId maxWaitTime hall maxWaitTime 0
      (by omega)

end SimpleBot

namespace PumpFun

/-- TokenMetadata as declared in types/pumpfun.d.ts: name, symbol,
description and imageUrl are required strings; the camelCase links and
the snake_case aliases are optional. Strings here are ASCII in every
input considered, so Lean character counts agree with the JS length. -/
structure TokenMetadata where
  name : String
  symbol : String
  description : String
  imageUrl : String
  telegramLink : Option String
  twitterLink : Option String
  image_url : Option String
  telegram_link : Option String
  twitter_link : Option String

/-- ValidationResult of types/pumpfun.d.ts. -/
structure ValidationResult where
  isValid : Bool
  errors : List String
  warnings : List String

/-- JS truthiness test of an optional string field: undefined and the
empty string are falsy. -/
def optFalsy : Option String → Bool
  | none => true
  | some s => s.isEmpty

/-- Character allowed after the first one in a URL scheme. -/
def isUrlSchemeTailChar (c : Char) : Bool :=
  c.isAlphanum || c = '+' || c = '-' || c = '.'

/-- Validity of a URL scheme token: one ASCII letter, then letters,
digits, plus, minus or dot. -/
def validScheme : List Char → Bool
  | [] => false
  | c :: cs => c.isAlpha && cs.all isUrlSchemeTailChar

/-- Characters strictly before the first colon, or none when the string
has no colon. -/
def colonSplit : List Char → Option (List Char)
  | [] => none
  | c :: cs => if c = ':' then some [] else (colonSplit cs).map (c :: ·)

/-- Modelled from the WHATWG URL constructor Node exposes as new URL:
parsing an absolute URL fails with a TypeError unless the input starts
with a scheme followed by a colon. The model accepts exactly the inputs
with such a scheme prefix; it does not re-check the scheme-specific rest,
which none of the inputs considered here exercises. -/
def jsUrlParseOk (s : String) : Bool :=
  match colonSplit s.toList with
  | none => false
  | some scheme => validScheme scheme

/-- Argument JS hands to new URL for an optional field accessed with the
non-null assertion: undefined stringifies to "undefined", which has no
scheme and fails to parse. -/
def urlArgOf : Option String → String
  | none => "undefined"
  | some s => s

/-- One rule block of the validator source: when the condition holds, set
isValid to false and push one error message; otherwise leave the result
unchanged. -/
def pushError (cond : Bool) (msg : String) (r : ValidationResult) :
    ValidationResult :=
  if cond then
    { r with isValid := false, errors := r.errors ++ [msg] }
  else r

/-- validateTokenMetadata of pumpfun-client.ts (lines 307-347): starts
from an all-valid result and, for each violated rule in order, flips
isValid to false and appends one error; warnings are never touched. The
only possible throw, new URL, is inside try/catch, so the function never
throws. -/
def validateTokenMetadata (metadata : TokenMetadata) : ValidationResult :=
  let r : ValidationResult := { isValid := true, errors := [], warnings := [] }
  let r := pushError (metadata.name.isEmpty || metadata.name.length > 32)
    "Token name must be 1-32 characters" r
  let r := pushError (metadata.symbol.isEmpty || metadata.symbol.length > 8)
    "Token symbol must be 1-8 characters" r
  let r := pushError
    (metadata.description.isEmpty || metadata.description.length > 200)
    "Description must be 1-200 characters" r
  let r := pushError (!jsUrlParseOk metadata.imageUrl) "Invalid image URL" r
  let r := pushError (optFalsy metadata.telegramLink)
    "Telegram link is required" r
  let r := pushError (optFalsy metadata.twitterLink)
    "Twitter link is required" r
  r

/-- validateTokenMetadata of unnamed/part_002 (lines 345-385): identical
rules, reading the snake_case fields image_url (with a non-null
assertion), telegram_link and twitter_link instead. -/
def validateTokenMetadataSnake (metadata : TokenMetadata) : ValidationResult :=
  let r : ValidationResult := { isValid := true, errors := [], warnings := [] }
  let r := pushError (metadata.name.isEmpty || metadata.name.length > 32)
    "Token name must be 1-32 characters" r
  let r := pushError (metadata.symbol.isEmpty || metadata.symbol.length > 8)
    "Token symbol must be 1-8 characters" r
  let r := pushError
    (metadata.description.isEmpty || metadata.description.length > 200)
    "Description must be 1-200 characters" r
  let r := pushError (!jsUrlParseOk (urlArgOf metadata.image_url))
    "Invalid image URL" r
  let r := pushError (optFalsy metadata.telegram_link)
    "Telegram link is required" r
  let r := pushError (optFalsy metadata.twitter_link)
    "Twitter link is required" r
  r

/-- Invariant of one rule block: it preserves the property that isValid
tracks emptiness of the error list and that warnings stay empty. -/
lemma pushError_invariant (cond : Bool) (msg : String) (r : ValidationResult)
    (h : r.isValid = r.errors.isEmpty ∧ r.warnings = []) :
    (pushError cond msg r).isValid = (pushError cond msg r).errors.isEmpty ∧
      (pushError cond msg r).warnings = [] := by
  cases cond with
  | true => simp [pushError, h.2]
  | false => simpa [pushError] using h

/-- Input of the validator test case of the claim: empty name, 13-char
symbol, valid description, unparseable image URL, both links absent. -/
def c9Metadata : TokenMetadata :=
  { name := ""
    symbol := "TOOLONGSYMBOL"
    description := "ok"
    imageUrl := "not-a-url"
    telegramLink := none
    twitterLink := none
    image_url := none
    telegram_link := none
    twitter_link := none }

/-- C9 counterexample: on the cited input the validator collects five
errors — name, symbol, image URL and both required links — not four. -/
theorem validateTokenMetadata_not_four_errors :
    (validateTokenMetadata c9Metadata).errors.length = 5 ∧
      (validateTokenMetadata c9Metadata).errors.length ≠ 4 := by
  refine ⟨?_, ?_⟩ <;> decide

/-- C9 (amended): the validator never stops at the first violation: on the
cited input it returns isValid false with exactly the five error entries
for name, symbol, image URL, telegram link and twitter link, in rule
order. -/
theorem validateTokenMetadata_collects_all :
    (validateTokenMetadata c9Metadata).isValid = false ∧
      (validateTokenMetadata c9Metadata).errors =
        ["Token name must be 1-32 characters",
         "Token symbol must be 1-8 characters",
         "Invalid image URL",
         "Telegram link is required",
         "Twitter link is required"] := by
  refine ⟨?_, ?_⟩ <;> decide

/-- C10: in both near-duplicate validators, isValid is true exactly when
the collected error list is empty, and the warnings list (always empty)
never affects validity. -/
theorem validateTokenMetadata_isValid_iff_no_errors (m : TokenMetadata) :
    ((validateTokenMetadata m).isValid =
        (validateTokenMetadata m).errors.isEmpty ∧
      (validateTokenMetadata m).warnings = []) ∧
      ((validateTokenMetadataSnake m).isValid =
          (validateTokenMetadataSnake m).errors.isEmpty ∧
        (validateTokenMetadataSnake m).warnings = []) := by
  have h0 : (⟨true, [], []⟩ : ValidationResult).isValid =
      (⟨true, [], []⟩ : ValidationResult).errors.isEmpty ∧
      (⟨true, [], []⟩ : ValidationResult).warnings = [] := by simp
  constructor
  · show (pushError _ _ (pushError _ _ (pushError _ _ (pushError _ _
      (pushError _ _ (pushError _ _ ⟨true, [], []⟩)))))).isValid = _ ∧ _
    exact pushError_invariant _ _ _ (pushError_invariant _ _ _
      (pushError_invariant _ _ _ (pushError_invariant _ _ _
        (pushError_invariant _ _ _ (pushError_invariant _ _ _ h0)))))
  · show (pushError _ _ (pushError _ _ (pushError _ _ (pushError _ _
      (pushError _ _ (pushError _ _ ⟨true, [], []⟩)))))).isValid = _ ∧ _
    exact pushError_invariant _ _ _ (pushError_invariant _ _ _
      (pushError_invariant _ _ _ (pushError_invariant _ _ _
        (pushError_invariant _ _ _ (pushError_invariant _ _ _ h0)))))

end PumpFun
